import Mathlib

set_option linter.unusedVariables false

/-!
Shallow embedding of `src/container/openclaw/security_hook.c`, the ArmorClaw
LD_PRELOAD security hook.  The C file shadows the exec family, `system`,
`popen`, `socket` and `connect`; each shadowed entry point lazily resolves the
real implementations through `init_real_functions` (a `dlsym(RTLD_NEXT, ...)`
per still-null pointer) and then either denies the call (writing a fixed
message to stderr with the raw `write` primitive and returning the failure
value) or forwards to the resolved real implementation.

The embedding makes all effects explicit:
  * `HookState` is the set of cached function-pointer globals (`real_execve`,
    ..., `real_connect`), each `Option Nat` (an address or NULL);
  * `Env` packages the deterministic behaviour of the outside world used by
    the hook: `dlsym` lookup and the behaviour of a resolved real function
    when invoked at its address;
  * every hook returns a `HookResult`: its return value, the updated cache,
    the list of byte strings written to stderr via `write(STDERR_FILENO, ..)`,
    and the list of invocations of resolved real functions.
-/

namespace ArmorClaw

/-- The deterministic outside world seen by the hook: `dlsym(RTLD_NEXT, name)`
resolution, and the behaviour of the real functions when called at a resolved
address. -/
structure Env where
  dlsym : String → Option Nat
  callSocket : Nat → Int → Int → Int → Int
  callExecve : Nat → String → List String → List String → Int

/-- The file-scope function-pointer cache of `security_hook.c` (lines 20-30):
one nullable pointer per shadowed symbol, all initially NULL. -/
structure HookState where
  realExecve : Option Nat
  realExecveat : Option Nat
  realExecl : Option Nat
  realExecle : Option Nat
  realExeclp : Option Nat
  realExecvp : Option Nat
  realExecvpe : Option Nat
  realSystem : Option Nat
  realPopen : Option Nat
  realSocket : Option Nat
  realConnect : Option Nat
deriving DecidableEq, Repr

/-- Process start: every pointer is NULL. -/
def hookState0 : HookState :=
  ⟨none, none, none, none, none, none, none, none, none, none, none⟩

/-- The fixed diagnostic of `security_hook.c` lines 33-34. -/
def SECURITY_ERROR : String :=
  "ArmorClaw Security: Operation blocked by security policy\n"

/-- One invocation of a resolved real implementation. -/
inductive RealCall where
  | socketCall (addr : Nat) (domain typ protocol : Int)
  | execveCall (addr : Nat) (pathname : String) (argv envp : List String)
deriving DecidableEq, Repr

/-- Result of one intercepted call: the value returned to the caller, the
updated pointer cache, the byte strings written to stderr via the raw `write`
primitive, and the real-function invocations performed. -/
structure HookResult (α : Type) where
  ret : α
  state : HookState
  stderrOut : List String
  realCalls : List RealCall

/-- One `if (!real_x) real_x = dlsym(RTLD_NEXT, "x");` step: keep a non-null
cached address, otherwise store whatever `dlsym` returns (possibly NULL). -/
def resolveIfNull (env : Env) (cur : Option Nat) (name : String) : Option Nat :=
  match cur with
  | some a => some a
  | none => env.dlsym name

/-- `init_real_functions` (lines 37-50): resolves exactly `execve`,
`execveat`, `system`, `popen`, `socket` and `connect`; the `execl`, `execle`,
`execlp`, `execvp`, `execvpe` pointers are declared but never resolved. -/
def init_real_functions (env : Env) (s : HookState) : HookState :=
  { s with
    realExecve := resolveIfNull env s.realExecve ("execve"),
    realExecveat := resolveIfNull env s.realExecveat ("execveat"),
    realSystem := resolveIfNull env s.realSystem ("system"),
    realPopen := resolveIfNull env s.realPopen ("popen"),
    realSocket := resolveIfNull env s.realSocket ("socket"),
    realConnect := resolveIfNull env s.realConnect ("connect") }

/-- `execve` hook (lines 56-60): init, write the diagnostic, return -1. -/
def execve (env : Env) (s : HookState) (pathname : String)
    (argv envp : List String) : HookResult Int :=
  { ret := -1, state := init_real_functions env s,
    stderrOut := [SECURITY_ERROR], realCalls := [] }

/-- `execveat` hook: init, write the diagnostic, return -1. -/
def execveat (env : Env) (s : HookState) (dirfd : Int) (pathname : String)
    (argv envp : List String) (flags : Int) : HookResult Int :=
  { ret := -1, state := init_real_functions env s,
    stderrOut := [SECURITY_ERROR], realCalls := [] }

/-- `execl` hook (variadic argument list modelled as a list): deny. -/
def execl (env : Env) (s : HookState) (pathname arg : String)
    (rest : List String) : HookResult Int :=
  { ret := -1, state := init_real_functions env s,
    stderrOut := [SECURITY_ERROR], realCalls := [] }

/-- `execle` hook: deny. -/
def execle (env : Env) (s : HookState) (pathname arg : String)
    (rest : List String) : HookResult Int :=
  { ret := -1, state := init_real_functions env s,
    stderrOut := [SECURITY_ERROR], realCalls := [] }

/-- `execlp` hook: deny. -/
def execlp (env : Env) (s : HookState) (pathname arg : String)
    (rest : List String) : HookResult Int :=
  { ret := -1, state := init_real_functions env s,
    stderrOut := [SECURITY_ERROR], realCalls := [] }

/-- `execvp` hook: deny. -/
def execvp (env : Env) (s : HookState) (file : String)
    (argv : List String) : HookResult Int :=
  { ret := -1, state := init_real_functions env s,
    stderrOut := [SECURITY_ERROR], realCalls := [] }

/-- `execvpe` hook: deny. -/
def execvpe (env : Env) (s : HookState) (file : String)
    (argv envp : List String) : HookResult Int :=
  { ret := -1, state := init_real_functions env s,
    stderrOut := [SECURITY_ERROR], realCalls := [] }

/-- `system` hook (lines 99-103): init, write the diagnostic, return -1. -/
def system (env : Env) (s : HookState) (command : String) : HookResult Int :=
  { ret := -1, state := init_real_functions env s,
    stderrOut := [SECURITY_ERROR], realCalls := [] }

/-- `popen` hook (lines 105-109): init, write the diagnostic, return NULL
(the `FILE *` result is modelled as `Option Nat`, NULL being `none`). -/
def popen (env : Env) (s : HookState) (command mode : String) :
    HookResult (Option Nat) :=
  { ret := none, state := init_real_functions env s,
    stderrOut := [SECURITY_ERROR], realCalls := [] }

/-- `AF_INET` on Linux. -/
def AF_INET : Int := 2

/-- `AF_INET6` on Linux. -/
def AF_INET6 : Int := 10

/-- `socket` hook (lines 115-126): deny AF_INET / AF_INET6 with the
diagnostic; otherwise forward to `real_socket` when it resolved, and return
-1 silently when it did not. -/
def socket (env : Env) (s : HookState) (domain typ protocol : Int) :
    HookResult Int :=
  let t := init_real_functions env s
  if domain = AF_INET ∨ domain = AF_INET6 then
    { ret := -1, state := t, stderrOut := [SECURITY_ERROR], realCalls := [] }
  else
    match t.realSocket with
    | some a =>
        { ret := env.callSocket a domain typ protocol, state := t,
          stderrOut := [],
          realCalls := [RealCall.socketCall a domain typ protocol] }
    | none =>
        { ret := -1, state := t, stderrOut := [], realCalls := [] }

/-- `connect` hook (lines 128-133): init, write the diagnostic, return -1.
The `struct sockaddr *` and `socklen_t` arguments are opaque to the hook and
modelled as a bare address and length. -/
def connect (env : Env) (s : HookState) (sockfd : Int) (addr : Nat)
    (addrlen : Nat) : HookResult Int :=
  { ret := -1, state := init_real_functions env s,
    stderrOut := [SECURITY_ERROR], realCalls := [] }

/-- One intercepted call made by the host process, with its arguments. -/
inductive Call where
  | execveC (pathname : String) (argv envp : List String)
  | execveatC (dirfd : Int) (pathname : String) (argv envp : List String)
      (flags : Int)
  | execlC (pathname arg : String) (rest : List String)
  | execleC (pathname arg : String) (rest : List String)
  | execlpC (pathname arg : String) (rest : List String)
  | execvpC (file : String) (argv : List String)
  | execvpeC (file : String) (argv envp : List String)
  | systemC (command : String)
  | popenC (command mode : String)
  | socketC (domain typ protocol : Int)
  | connectC (sockfd : Int) (addr : Nat) (addrlen : Nat)
deriving DecidableEq, Repr

/-- The pointer-cache state after dispatching one intercepted call. -/
def stepState (env : Env) (s : HookState) : Call → HookState
  | Call.execveC p argv envp => (execve env s p argv envp).state
  | Call.execveatC d p argv envp f => (execveat env s d p argv envp f).state
  | Call.execlC p a r => (execl env s p a r).state
  | Call.execleC p a r => (execle env s p a r).state
  | Call.execlpC p a r => (execlp env s p a r).state
  | Call.execvpC f argv => (execvp env s f argv).state
  | Call.execvpeC f argv envp => (execvpe env s f argv envp).state
  | Call.systemC c => (system env s c).state
  | Call.popenC c m => (popen env s c m).state
  | Call.socketC d t p => (socket env s d t p).state
  | Call.connectC fd a l => (connect env s fd a l).state

/-- The real-function invocations performed by one intercepted call. -/
def stepLog (env : Env) (s : HookState) : Call → List RealCall
  | Call.execveC p argv envp => (execve env s p argv envp).realCalls
  | Call.execveatC d p argv envp f => (execveat env s d p argv envp f).realCalls
  | Call.execlC p a r => (execl env s p a r).realCalls
  | Call.execleC p a r => (execle env s p a r).realCalls
  | Call.execlpC p a r => (execlp env s p a r).realCalls
  | Call.execvpC f argv => (execvp env s f argv).realCalls
  | Call.execvpeC f argv envp => (execvpe env s f argv envp).realCalls
  | Call.systemC c => (system env s c).realCalls
  | Call.popenC c m => (popen env s c m).realCalls
  | Call.socketC d t p => (socket env s d t p).realCalls
  | Call.connectC fd a l => (connect env s fd a l).realCalls

/-- The pointer-cache state after a whole sequence of intercepted calls. -/
def runCalls (env : Env) (s : HookState) : List Call → HookState
  | [] => s
  | c :: cs => runCalls env (stepState env s c) cs

/-- All real-function invocations performed over a sequence of calls. -/
def runLog (env : Env) (s : HookState) : List Call → List RealCall
  | [] => []
  | c :: cs => stepLog env s c ++ runLog env (stepState env s c) cs

/-- Character-list prefix test, used for the substring matching of the
permissive policy model. -/
def charsStart : List Char → List Char → Bool
  | _, [] => true
  | [], _ :: _ => false
  | a :: as, b :: bs => a = b && charsStart as bs

/-- Character-list substring test. -/
def charsHave : List Char → List Char → Bool
  | s, pat =>
    charsStart s pat ||
      (match s with
       | [] => false
       | _ :: t => charsHave t pat)

/-- Substring test on strings: does `s` contain `pat`? -/
def containsSub (s pat : String) : Bool :=
  charsHave s.toList pat.toList

/-- Modelled from the spec: the permissive-mode allow decision for
exec-family targets.  The permissive source variant is not under `src/`
(only the strict variant is); per spec section 8, a target is allowed when
the `ARMORCLAW_ALLOW_EXEC` environment variable is present (any value), or
when the path contains the substring "python" or "node", or equals
"/usr/bin/id" or "/bin/id". -/
def permissiveAllows (envVars : String → Option String)
    (pathname : String) : Bool :=
  (envVars ("ARMORCLAW_ALLOW_EXEC")).isSome ||
    containsSub pathname ("python") || containsSub pathname ("node") ||
    pathname = "/usr/bin/id" || pathname = "/bin/id"

/-- Modelled from the spec: the permissive-mode `execve` hook, absent from
`src/`.  It resolves the real functions lazily, forwards an allowed target to
the resolved real `execve`, denies a disallowed target with the fixed
diagnostic and -1, and fails closed (deny) when an allowed target's real
implementation did not resolve. -/
def permissive_execve (env : Env) (envVars : String → Option String)
    (s : HookState) (pathname : String) (argv envp : List String) :
    HookResult Int :=
  let t := init_real_functions env s
  if permissiveAllows envVars pathname then
    match t.realExecve with
    | some a =>
        { ret := env.callExecve a pathname argv envp, state := t,
          stderrOut := [],
          realCalls := [RealCall.execveCall a pathname argv envp] }
    | none => { ret := -1, state := t, stderrOut := [], realCalls := [] }
  else
    { ret := -1, state := t, stderrOut := [SECURITY_ERROR], realCalls := [] }

/-- Preservation of one cached binding: once it holds an address, it still
holds that same address. -/
def bindingPreserved (x y : Option Nat) : Prop :=
  ∀ a, x = some a → y = some a

/-- Preservation of every cached binding of the hook state. -/
def bindingsPreserved (s t : HookState) : Prop :=
  bindingPreserved s.realExecve t.realExecve ∧
  bindingPreserved s.realExecveat t.realExecveat ∧
  bindingPreserved s.realExecl t.realExecl ∧
  bindingPreserved s.realExecle t.realExecle ∧
  bindingPreserved s.realExeclp t.realExeclp ∧
  bindingPreserved s.realExecvp t.realExecvp ∧
  bindingPreserved s.realExecvpe t.realExecvpe ∧
  bindingPreserved s.realSystem t.realSystem ∧
  bindingPreserved s.realPopen t.realPopen ∧
  bindingPreserved s.realSocket t.realSocket ∧
  bindingPreserved s.realConnect t.realConnect

/-- A concrete resolution environment in which every symbol resolves (to the
address 5), used to exercise the forwarding paths. -/
def envAll : Env :=
  ⟨fun n => some 5,
   fun a d t p => a + d + t + p,
   fun a p argv envp => a⟩

/-- A concrete resolution environment in which no symbol resolves, used to
exercise the fail-closed paths. -/
def envNone : Env :=
  ⟨fun n => none, fun a d t p => 0, fun a p argv envp => 0⟩

theorem resolveIfNull_some (env : Env) (cur : Option Nat) (n : String) :
    bindingPreserved cur (resolveIfNull env cur n) := by
  intro a h
  subst h
  rfl

theorem resolveIfNull_idem (env : Env) (cur : Option Nat) (n : String) :
    resolveIfNull env (resolveIfNull env cur n) n = resolveIfNull env cur n := by
  cases cur with
  | some a => rfl
  | none =>
    show resolveIfNull env (env.dlsym n) n = env.dlsym n
    cases h : env.dlsym n with
    | some a => rfl
    | none => show env.dlsym n = none; exact h

theorem bindingPreserved_refl (x : Option Nat) : bindingPreserved x x :=
  fun a h => h

theorem bindingPreserved_trans {x y z : Option Nat}
    (h1 : bindingPreserved x y) (h2 : bindingPreserved y z) :
    bindingPreserved x z :=
  fun a h => h2 a (h1 a h)

theorem bindingsPreserved_refl (s : HookState) : bindingsPreserved s s :=
  ⟨bindingPreserved_refl _, bindingPreserved_refl _, bindingPreserved_refl _,
   bindingPreserved_refl _, bindingPreserved_refl _, bindingPreserved_refl _,
   bindingPreserved_refl _, bindingPreserved_refl _, bindingPreserved_refl _,
   bindingPreserved_refl _, bindingPreserved_refl _⟩

theorem bindingsPreserved_trans {s t u : HookState}
    (h1 : bindingsPreserved s t) (h2 : bindingsPreserved t u) :
    bindingsPreserved s u := by
  obtain ⟨a1, a2, a3, a4, a5, a6, a7, a8, a9, a10, a11⟩ := h1
  obtain ⟨b1, b2, b3, b4, b5, b6, b7, b8, b9, b10, b11⟩ := h2
  exact ⟨bindingPreserved_trans a1 b1, bindingPreserved_trans a2 b2,
    bindingPreserved_trans a3 b3, bindingPreserved_trans a4 b4,
    bindingPreserved_trans a5 b5, bindingPreserved_trans a6 b6,
    bindingPreserved_trans a7 b7, bindingPreserved_trans a8 b8,
    bindingPreserved_trans a9 b9, bindingPreserved_trans a10 b10,
    bindingPreserved_trans a11 b11⟩

theorem init_real_functions_preserves (env : Env) (s : HookState) :
    bindingsPreserved s (init_real_functions env s) :=
  ⟨resolveIfNull_some env s.realExecve ("execve"),
   resolveIfNull_some env s.realExecveat ("execveat"),
   bindingPreserved_refl s.realExecl,
   bindingPreserved_refl s.realExecle,
   bindingPreserved_refl s.realExeclp,
   bindingPreserved_refl s.realExecvp,
   bindingPreserved_refl s.realExecvpe,
   resolveIfNull_some env s.realSystem ("system"),
   resolveIfNull_some env s.realPopen ("popen"),
   resolveIfNull_some env s.realSocket ("socket"),
   resolveIfNull_some env s.realConnect ("connect")⟩

theorem init_real_functions_idem (env : Env) (s : HookState) :
    init_real_functions env (init_real_functions env s)
      = init_real_functions env s := by
  cases s
  simp only [init_real_functions, resolveIfNull_idem]

theorem socket_state (env : Env) (s : HookState) (domain typ protocol : Int) :
    (socket env s domain typ protocol).state = init_real_functions env s := by
  by_cases h : domain = AF_INET ∨ domain = AF_INET6
  · simp [socket, h]
  · cases hs : (init_real_functions env s).realSocket with
    | some a => simp [socket, h, hs]
    | none => simp [socket, h, hs]

theorem stepState_init (env : Env) (s : HookState) (c : Call) :
    stepState env s c = init_real_functions env s := by
  cases c with
  | socketC d t p => exact socket_state env s d t p
  | execveC p argv envp => rfl
  | execveatC d p argv envp f => rfl
  | execlC p a r => rfl
  | execleC p a r => rfl
  | execlpC p a r => rfl
  | execvpC f argv => rfl
  | execvpeC f argv envp => rfl
  | systemC c => rfl
  | popenC c m => rfl
  | connectC fd a l => rfl

theorem runCalls_preserves (env : Env) (s : HookState) (cs : List Call) :
    bindingsPreserved s (runCalls env s cs) := by
  induction cs generalizing s with
  | nil => exact bindingsPreserved_refl s
  | cons c cs ih =>
    show bindingsPreserved s (runCalls env (stepState env s c) cs)
    refine bindingsPreserved_trans ?_ (ih (stepState env s c))
    rw [stepState_init]
    exact init_real_functions_preserves env s

theorem stepState_untouched (env : Env) (s : HookState) (c : Call) :
    (stepState env s c).realExecl = s.realExecl
    ∧ (stepState env s c).realExecle = s.realExecle
    ∧ (stepState env s c).realExeclp = s.realExeclp
    ∧ (stepState env s c).realExecvp = s.realExecvp
    ∧ (stepState env s c).realExecvpe = s.realExecvpe := by
  rw [stepState_init]
  exact ⟨rfl, rfl, rfl, rfl, rfl⟩

theorem runCalls_untouched (env : Env) (s : HookState) (cs : List Call) :
    (runCalls env s cs).realExecl = s.realExecl
    ∧ (runCalls env s cs).realExecle = s.realExecle
    ∧ (runCalls env s cs).realExeclp = s.realExeclp
    ∧ (runCalls env s cs).realExecvp = s.realExecvp
    ∧ (runCalls env s cs).realExecvpe = s.realExecvpe := by
  induction cs generalizing s with
  | nil => exact ⟨rfl, rfl, rfl, rfl, rfl⟩
  | cons c cs ih =>
    obtain ⟨i1, i2, i3, i4, i5⟩ := ih (stepState env s c)
    obtain ⟨u1, u2, u3, u4, u5⟩ := stepState_untouched env s c
    exact ⟨i1.trans u1, i2.trans u2, i3.trans u3, i4.trans u4, i5.trans u5⟩

theorem stepLog_socket_only (env : Env) (s : HookState) (c : Call) :
    ∀ rc ∈ stepLog env s c, ∃ a d t p, rc = RealCall.socketCall a d t p := by
  intro rc h
  cases c with
  | socketC d t p =>
    by_cases hc : d = AF_INET ∨ d = AF_INET6
    · simp [stepLog, socket, hc] at h
    · cases hs : (init_real_functions env s).realSocket with
      | some a =>
        simp [stepLog, socket, hc, hs] at h
        exact ⟨a, d, t, p, h⟩
      | none => simp [stepLog, socket, hc, hs] at h
  | execveC p argv envp => simp [stepLog, execve] at h
  | execveatC d p argv envp f => simp [stepLog, execveat] at h
  | execlC p a r => simp [stepLog, execl] at h
  | execleC p a r => simp [stepLog, execle] at h
  | execlpC p a r => simp [stepLog, execlp] at h
  | execvpC f argv => simp [stepLog, execvp] at h
  | execvpeC f argv envp => simp [stepLog, execvpe] at h
  | systemC c => simp [stepLog, system] at h
  | popenC c m => simp [stepLog, popen] at h
  | connectC fd a l => simp [stepLog, connect] at h

theorem runLog_socket_only (env : Env) (s : HookState) (cs : List Call) :
    ∀ rc ∈ runLog env s cs, ∃ a d t p, rc = RealCall.socketCall a d t p := by
  induction cs generalizing s with
  | nil =>
    intro rc h
    simp [runLog] at h
  | cons c cs ih =>
    intro rc h
    rw [runLog] at h
    rcases List.mem_append.mp h with h1 | h2
    · exact stepLog_socket_only env s c rc h1
    · exact ih (stepState env s c) rc h2

/-- C1: in strict mode every exec-family invocation (execve, execveat, execl,
execle, execlp, execvp, execvpe), regardless of target path, arguments or
environment, is denied: it returns -1 to the caller as a normal return and
never invokes the real implementation. -/
theorem strict_exec_family_denied (env : Env) (s : HookState)
    (pathname file arg : String) (argv envp rest : List String)
    (dirfd flags : Int) :
    ((execve env s pathname argv envp).ret = -1
      ∧ (execve env s pathname argv envp).realCalls = [])
    ∧ ((execveat env s dirfd pathname argv envp flags).ret = -1
      ∧ (execveat env s dirfd pathname argv envp flags).realCalls = [])
    ∧ ((execl env s pathname arg rest).ret = -1
      ∧ (execl env s pathname arg rest).realCalls = [])
    ∧ ((execle env s pathname arg rest).ret = -1
      ∧ (execle env s pathname arg rest).realCalls = [])
    ∧ ((execlp env s pathname arg rest).ret = -1
      ∧ (execlp env s pathname arg rest).realCalls = [])
    ∧ ((execvp env s file argv).ret = -1
      ∧ (execvp env s file argv).realCalls = [])
    ∧ ((execvpe env s file argv envp).ret = -1
      ∧ (execvpe env s file argv envp).realCalls = []) :=
  ⟨⟨rfl, rfl⟩, ⟨rfl, rfl⟩, ⟨rfl, rfl⟩, ⟨rfl, rfl⟩, ⟨rfl, rfl⟩, ⟨rfl, rfl⟩,
   ⟨rfl, rfl⟩⟩

/-- C2: every socket-creation request with a network address family (IPv4 or
IPv6) is denied with -1 and the real socket implementation is never
invoked. -/
theorem socket_network_family_denied (env : Env) (s : HookState)
    (domain typ protocol : Int) (h : domain = AF_INET ∨ domain = AF_INET6) :
    (socket env s domain typ protocol).ret = -1
    ∧ (socket env s domain typ protocol).realCalls = [] := by
  rcases h with h | h <;> subst h <;> exact ⟨rfl, rfl⟩

/-- Witness for C2 at domain AF_INET. -/
theorem socket_network_family_denied_witness :
    (socket envNone hookState0 AF_INET 1 0).ret = -1
    ∧ (socket envNone hookState0 AF_INET 1 0).realCalls = [] :=
  socket_network_family_denied envNone hookState0 AF_INET 1 0 (Or.inl rfl)

/-- C3: every connect call, regardless of descriptor, address or length, is
denied with -1 and the real connect implementation is never invoked. -/
theorem connect_always_denied (env : Env) (s : HookState) (sockfd : Int)
    (addr addrlen : Nat) :
    (connect env s sockfd addr addrlen).ret = -1
    ∧ (connect env s sockfd addr addrlen).realCalls = [] :=
  ⟨rfl, rfl⟩

/-- C4: a socket-creation request with a non-network address family, when the
real socket implementation resolved, forwards to the real implementation and
returns exactly its result, with no diagnostic. -/
theorem socket_local_forwards (env : Env) (s : HookState)
    (domain typ protocol : Int) (a : Nat)
    (h1 : domain ≠ AF_INET) (h2 : domain ≠ AF_INET6)
    (hres : (init_real_functions env s).realSocket = some a) :
    (socket env s domain typ protocol).ret
        = env.callSocket a domain typ protocol
    ∧ (socket env s domain typ protocol).realCalls
        = [RealCall.socketCall a domain typ protocol]
    ∧ (socket env s domain typ protocol).stderrOut = [] := by
  have hn : ¬(domain = AF_INET ∨ domain = AF_INET6) := by
    rintro (h | h)
    exacts [h1 h, h2 h]
  simp [socket, hn, hres]

/-- Witness for C4 at a local (Unix) domain with every symbol resolving. -/
theorem socket_local_forwards_witness :
    (socket envAll hookState0 1 1 0).ret = envAll.callSocket 5 1 1 0
    ∧ (socket envAll hookState0 1 1 0).realCalls = [RealCall.socketCall 5 1 1 0]
    ∧ (socket envAll hookState0 1 1 0).stderrOut = [] :=
  socket_local_forwards envAll hookState0 1 1 0 5 (by decide) (by decide) rfl

/-- C5: the shell-invocation entry points are denied in every mode and
configuration: system always returns -1, popen always returns NULL, and no
real implementation is ever invoked, for every command. -/
theorem shell_invocation_denied (env : Env) (s : HookState)
    (command mode : String) :
    (system env s command).ret = -1
    ∧ (system env s command).realCalls = []
    ∧ (popen env s command mode).ret = none
    ∧ (popen env s command mode).realCalls = [] :=
  ⟨rfl, rfl, rfl, rfl⟩

/-- C6 counterexample: a denial with no diagnostic.  A socket call with a
local (non-network) domain whose real implementation did not resolve is
denied (-1, nothing forwarded) yet writes nothing to stderr, so the claim
that every denial writes the fixed diagnostic is false on the code. -/
theorem denial_without_diagnostic :
    (socket envNone hookState0 1 1 0).ret = -1
    ∧ (socket envNone hookState0 1 1 0).realCalls = []
    ∧ (socket envNone hookState0 1 1 0).stderrOut = [] :=
  ⟨rfl, rfl, rfl⟩

/-- C6 amended: on every policy denial — every exec-family call, system,
popen, connect, and any socket call with a network address family — exactly
the fixed diagnostic string is written once, byte-for-byte, to standard error
via the raw write primitive, with no call-specific context; only the
fail-closed denial of a non-network socket call with an unresolved real
implementation is silent. -/
theorem policy_denial_diagnostic (env : Env) (s : HookState)
    (pathname file arg command mode : String) (argv envp rest : List String)
    (dirfd flags sockfd domain typ protocol : Int) (addr addrlen : Nat) :
    (execve env s pathname argv envp).stderrOut = [SECURITY_ERROR]
    ∧ (execveat env s dirfd pathname argv envp flags).stderrOut
        = [SECURITY_ERROR]
    ∧ (execl env s pathname arg rest).stderrOut = [SECURITY_ERROR]
    ∧ (execle env s pathname arg rest).stderrOut = [SECURITY_ERROR]
    ∧ (execlp env s pathname arg rest).stderrOut = [SECURITY_ERROR]
    ∧ (execvp env s file argv).stderrOut = [SECURITY_ERROR]
    ∧ (execvpe env s file argv envp).stderrOut = [SECURITY_ERROR]
    ∧ (system env s command).stderrOut = [SECURITY_ERROR]
    ∧ (popen env s command mode).stderrOut = [SECURITY_ERROR]
    ∧ (connect env s sockfd addr addrlen).stderrOut = [SECURITY_ERROR]
    ∧ ((domain = AF_INET ∨ domain = AF_INET6) →
        (socket env s domain typ protocol).stderrOut = [SECURITY_ERROR]) := by
  refine ⟨rfl, rfl, rfl, rfl, rfl, rfl, rfl, rfl, rfl, rfl, ?_⟩
  rintro (h | h) <;> subst h <;> rfl

/-- Witness for C6 amended, at the socket policy-denial conjunct. -/
theorem policy_denial_diagnostic_witness :
    (socket envNone hookState0 AF_INET6 1 0).stderrOut = [SECURITY_ERROR] :=
  (policy_denial_diagnostic envNone hookState0 "" "" "" "" "" [] [] [] 0 0 0
      AF_INET6 1 0 0 0).2.2.2.2.2.2.2.2.2.2 (Or.inr rfl)

/-- C7 (permissive mode, modelled from the spec): with the real execve
resolved, a target whose path contains "python" or "node" or equals
"/usr/bin/id" or "/bin/id" is allowed and forwarded; the presence of
ARMORCLAW_ALLOW_EXEC (any value) allows every target; every other target is
denied with -1 and nothing forwarded. -/
theorem permissive_execve_policy (env : Env)
    (envVars : String → Option String) (s : HookState) (pathname : String)
    (argv envp : List String) (a : Nat)
    (hres : (init_real_functions env s).realExecve = some a) :
    ((containsSub pathname ("python") = true
        ∨ containsSub pathname ("node") = true
        ∨ pathname = "/usr/bin/id" ∨ pathname = "/bin/id") →
      (permissive_execve env envVars s pathname argv envp).ret
          = env.callExecve a pathname argv envp
      ∧ (permissive_execve env envVars s pathname argv envp).realCalls
          = [RealCall.execveCall a pathname argv envp])
    ∧ ((envVars ("ARMORCLAW_ALLOW_EXEC")).isSome = true →
      (permissive_execve env envVars s pathname argv envp).ret
          = env.callExecve a pathname argv envp
      ∧ (permissive_execve env envVars s pathname argv envp).realCalls
          = [RealCall.execveCall a pathname argv envp])
    ∧ ((envVars ("ARMORCLAW_ALLOW_EXEC")).isSome = false →
       containsSub pathname ("python") = false →
       containsSub pathname ("node") = false →
       pathname ≠ "/usr/bin/id" → pathname ≠ "/bin/id" →
      (permissive_execve env envVars s pathname argv envp).ret = -1
      ∧ (permissive_execve env envVars s pathname argv envp).realCalls
          = []) := by
  refine ⟨?_, ?_, ?_⟩
  · intro h
    have hallow : permissiveAllows envVars pathname = true := by
      rcases h with h | h | h | h <;> simp [permissiveAllows, h]
    simp [permissive_execve, hallow, hres]
  · intro h
    have hallow : permissiveAllows envVars pathname = true := by
      simp [permissiveAllows, h]
    simp [permissive_execve, hallow, hres]
  · intro h1 h2 h3 h4 h5
    have hallow : permissiveAllows envVars pathname = false := by
      simp [permissiveAllows, h1, h2, h3, h4, h5]
    simp [permissive_execve, hallow]

/-- Witness for C7 at the target "/usr/bin/python3" with no environment
variables set and every symbol resolving. -/
theorem permissive_execve_policy_witness :
    (permissive_execve envAll (fun v => none) hookState0 "/usr/bin/python3"
        [] []).ret = envAll.callExecve 5 "/usr/bin/python3" [] []
    ∧ (permissive_execve envAll (fun v => none) hookState0 "/usr/bin/python3"
        [] []).realCalls = [RealCall.execveCall 5 "/usr/bin/python3" [] []] :=
  (permissive_execve_policy envAll (fun v => none) hookState0
      "/usr/bin/python3" [] [] 5 rfl).1 (Or.inl (by decide))

/-- C8: resolution is idempotent — running the lazy initializer twice leaves
exactly the state the first run produced — and once a cached binding is
non-null it keeps the same address across any sequence of intercepted
calls. -/
theorem resolution_idempotent (env : Env) (s : HookState) (cs : List Call) :
    init_real_functions env (init_real_functions env s)
        = init_real_functions env s
    ∧ bindingsPreserved s (runCalls env s cs) :=
  ⟨init_real_functions_idem env s, runCalls_preserves env s cs⟩

/-- Witness for C8: a cached socket address survives a run of calls. -/
theorem resolution_idempotent_witness :
    (runCalls envAll { hookState0 with realSocket := some 9 }
        [Call.connectC 0 0 0]).realSocket = some 9 := by
  have h := (resolution_idempotent envAll
      { hookState0 with realSocket := some 9 } [Call.connectC 0 0 0]).2
  exact h.2.2.2.2.2.2.2.2.2.1 9 rfl

/-- C9: a socket-creation request with a non-network address family whose
real implementation did not resolve is denied with -1, silently: nothing is
written to stderr and nothing is forwarded. -/
theorem socket_failclosed_silent (env : Env) (s : HookState)
    (domain typ protocol : Int)
    (h1 : domain ≠ AF_INET) (h2 : domain ≠ AF_INET6)
    (hres : (init_real_functions env s).realSocket = none) :
    (socket env s domain typ protocol).ret = -1
    ∧ (socket env s domain typ protocol).stderrOut = []
    ∧ (socket env s domain typ protocol).realCalls = [] := by
  have hn : ¬(domain = AF_INET ∨ domain = AF_INET6) := by
    rintro (h | h)
    exacts [h1 h, h2 h]
  simp [socket, hn, hres]

/-- Witness for C9 at a Unix-domain request with no symbol resolving. -/
theorem socket_failclosed_silent_witness :
    (socket envNone hookState0 1 1 0).ret = -1
    ∧ (socket envNone hookState0 1 1 0).stderrOut = []
    ∧ (socket envNone hookState0 1 1 0).realCalls = [] :=
  socket_failclosed_silent envNone hookState0 1 1 0 (by decide) (by decide)
    rfl

/-- C10: the initializer only resolves execve, execveat, system, popen,
socket and connect — the execl, execle, execlp, execvp, execvpe pointers are
never written and stay null from process start over any call sequence — and
the only resolved real pointer any entry point ever invokes is socket's. -/
theorem resolution_surface_restricted (env : Env) (s : HookState)
    (cs : List Call) :
    ((init_real_functions env s).realExecl = s.realExecl
      ∧ (init_real_functions env s).realExecle = s.realExecle
      ∧ (init_real_functions env s).realExeclp = s.realExeclp
      ∧ (init_real_functions env s).realExecvp = s.realExecvp
      ∧ (init_real_functions env s).realExecvpe = s.realExecvpe)
    ∧ ((runCalls env hookState0 cs).realExecl = none
      ∧ (runCalls env hookState0 cs).realExecle = none
      ∧ (runCalls env hookState0 cs).realExeclp = none
      ∧ (runCalls env hookState0 cs).realExecvp = none
      ∧ (runCalls env hookState0 cs).realExecvpe = none)
    ∧ (∀ rc ∈ runLog env s cs, ∃ a d t p, rc = RealCall.socketCall a d t p) := by
  refine ⟨⟨rfl, rfl, rfl, rfl, rfl⟩, ?_, runLog_socket_only env s cs⟩
  obtain ⟨u1, u2, u3, u4, u5⟩ := runCalls_untouched env hookState0 cs
  exact ⟨u1, u2, u3, u4, u5⟩

/-- Witness for C10: the one real call of a forwarded local socket request is
a socket call. -/
theorem resolution_surface_restricted_witness :
    ∃ a d t p, RealCall.socketCall 5 1 1 0 = RealCall.socketCall a d t p :=
  (resolution_surface_restricted envAll hookState0 [Call.socketC 1 1 0]).2.2
    (RealCall.socketCall 5 1 1 0) (by decide)

end ArmorClaw
